import Mathlib

/-!
Verification of the cache subsystem of the youseo repository
(src/cache_manager.py), shallowly embedded in Lean 4.

Modelling decisions, stated once:

* Python values stored in a cache record are modelled by `PyVal`; `PyVal.none`
  is Python `None`.  `CacheManager.get` in the source returns either a cached
  data value or Python `None` for a miss, so the embedded `get` returns a
  `PyVal` (with `PyVal.none` standing for both a miss and a cached `None`).
* A cache file on disk is a `RawRecord`:
  - `badJson raw`: bytes on which `json.load` raises `json.JSONDecodeError`
    (truncated or malformed JSON); `raw` keeps distinct corrupt files distinct;
  - `nonObj v`: bytes that are valid JSON but whose top-level value is not an
    object, so `json.load` succeeds and the subsequent `cache_data.get(...)`
    attribute access raises `AttributeError`;
  - `obj cachedAt ttl identifier data`: a JSON object; the numeric fields
    `cached_at` and `ttl` are `Option Int` (absent field = `Option.none`,
    matching `dict.get(key, default)` in the source); the `data` field is the
    value `cache_data.get('data')` yields (an absent `data` key and an explicit
    `null` both yield Python `None` and are merged into `PyVal.none`).
    Fields holding values of non-numeric type are not modelled.
* A namespace directory is a `Partition`: an association list from hashed key
  (file name) to record, in directory-listing order.  `time.time()` is the
  explicit `now : Int` argument; the md5 key derivation is an arbitrary
  function argument `hash : String -> String` (its internals are irrelevant:
  every claim holds for every deterministic hash); the on-disk size
  `Path.stat().st_size` is a function argument `fileSize : RawRecord -> Nat`
  (the file's bytes are a function of its content).
* Uncaught Python exceptions are modelled by `Except`: each operation returns
  its Python result (or the exception that escapes it) together with the store
  left behind.  `PyErr.valueError` is the `ValueError("Unknown cache type")`
  raised by `_get_cache_path`; `PyErr.attributeError` is the `AttributeError`
  raised by `.get` on a non-dict, which none of the `except` clauses in the
  source lists.
* Filesystem write failures (`IOError` on `set`) and the float `total_cache_size_mb`
  / `cache_directory` fields of `get_stats` are outside the claims and are not
  modelled; `set`'s file write always succeeds and returns `True`.
-/

namespace YouSeo

/-- A Python value as stored in the `data` field of a cache record. -/
inductive PyVal : Type where
  | none : PyVal
  | bool (b : Bool) : PyVal
  | int (n : Int) : PyVal
  | str (s : String) : PyVal
  | list (xs : List PyVal) : PyVal

/-- A durable cache file, as `json.load` sees it.  See the header comment. -/
inductive RawRecord : Type where
  | badJson (raw : String) : RawRecord
  | nonObj (v : PyVal) : RawRecord
  | obj (cachedAt ttl : Option Int) (identifier : Option String) (data : PyVal) : RawRecord

/-- An uncaught Python exception escaping a cache operation. -/
inductive PyErr : Type where
  | valueError : PyErr
  | attributeError : PyErr
deriving DecidableEq

/-- The three recognized cache types (`'video'`, `'comments'`, `'search'`),
each owning one subdirectory of the cache directory. -/
inductive NS : Type where
  | video : NS
  | comments : NS
  | search : NS
deriving DecidableEq

/-- The dispatch on the `cache_type` string performed by
`CacheManager._get_cache_path` (and repeated in `clear`): `Option.none` models
the `ValueError("Unknown cache type")` branch. -/
def parseCacheType : String → Option NS
  | "video" => Option.some NS.video
  | "comments" => Option.some NS.comments
  | "search" => Option.some NS.search
  | _ => Option.none

/-- One namespace subdirectory: hashed key (file name) to record, in
directory-listing order. -/
abbrev Partition : Type := List (String × RawRecord)

/-- Look up the record stored under file name `k` (the file either exists or
not; in a real directory names are unique, so the first match is the file). -/
def lookupKey : Partition → String → Option RawRecord
  | [], _ => Option.none
  | e :: rest, k => if e.1 = k then Option.some e.2 else lookupKey rest k

/-- `Path.unlink()` on the file named `k`. -/
def eraseKey : Partition → String → Partition
  | [], _ => []
  | e :: rest, k => if e.1 = k then eraseKey rest k else e :: eraseKey rest k

/-- `open(path, 'w')` followed by `json.dump`: the file named `k` now holds
exactly `r`, fully replacing any prior content. -/
def setKey (p : Partition) (k : String) (r : RawRecord) : Partition :=
  (k, r) :: eraseKey p k

/-- The whole cache directory: `videos/`, `comments/`, `searches/`. -/
structure Store : Type where
  video : Partition
  comments : Partition
  search : Partition

/-- The subdirectory selected for a recognized cache type. -/
def Store.part (s : Store) : NS → Partition
  | NS.video => s.video
  | NS.comments => s.comments
  | NS.search => s.search

/-- Replace one subdirectory's contents. -/
def Store.setPart (s : Store) : NS → Partition → Store
  | NS.video, p => { s with video := p }
  | NS.comments, p => { s with comments := p }
  | NS.search, p => { s with search := p }

/-- Python's `ttl or self.default_ttl` on an `Optional[int]`: `None` and `0`
are both falsy, every other integer is truthy. -/
def pyOrInt : Option Int → Int → Int
  | Option.none, d => d
  | Option.some t, d => if t = 0 then d else t

namespace CacheManager

/-- `CacheManager.get` (src/cache_manager.py lines 54-89).  Returns the Python
return value (or the escaping exception) and the cache directory afterwards.
`PyVal.none` is the Python `None` returned on a miss. -/
def get (hash : String → String) (defaultTTL now : Int) (st : Store)
    (cacheType identifier : String) : Except PyErr PyVal × Store :=
  match parseCacheType cacheType with
  | Option.none => (Except.error PyErr.valueError, st)
  | Option.some ns =>
    let key := hash identifier
    match lookupKey (st.part ns) key with
    | Option.none => (Except.ok PyVal.none, st)
    | Option.some r =>
      match r with
      | RawRecord.badJson _ =>
        -- json.JSONDecodeError is caught: unlink the file, return None
        (Except.ok PyVal.none, st.setPart ns (eraseKey (st.part ns) key))
      | RawRecord.nonObj _ =>
        -- AttributeError from cache_data.get(...) is not in the except list
        (Except.error PyErr.attributeError, st)
      | RawRecord.obj cachedAt ttl _ data =>
        let ca := cachedAt.getD 0
        let t := ttl.getD defaultTTL
        if now - ca > t then
          (Except.ok PyVal.none, st.setPart ns (eraseKey (st.part ns) key))
        else
          (Except.ok data, st)

/-- `CacheManager.set` (lines 91-118).  Builds the cache_data dict and writes
it; the write itself is modelled as always succeeding. -/
def set (hash : String → String) (defaultTTL now : Int) (st : Store)
    (cacheType identifier : String) (data : PyVal) (ttl : Option Int) :
    Except PyErr Bool × Store :=
  match parseCacheType cacheType with
  | Option.none => (Except.error PyErr.valueError, st)
  | Option.some ns =>
    let key := hash identifier
    let entry : RawRecord :=
      RawRecord.obj (Option.some now) (Option.some (pyOrInt ttl defaultTTL))
        (Option.some identifier) data
    (Except.ok true, st.setPart ns (setKey (st.part ns) key entry))

/-- `CacheManager.invalidate` (lines 120-136). -/
def invalidate (hash : String → String) (st : Store)
    (cacheType identifier : String) : Except PyErr Bool × Store :=
  match parseCacheType cacheType with
  | Option.none => (Except.error PyErr.valueError, st)
  | Option.some ns =>
    let key := hash identifier
    match lookupKey (st.part ns) key with
    | Option.none => (Except.ok false, st)
    | Option.some _ => (Except.ok true, st.setPart ns (eraseKey (st.part ns) key))

/-- `CacheManager.clear` (lines 138-171).  Never raises; an unrecognized
cache type returns 0 having removed nothing. -/
def clear (st : Store) (cacheType : Option String) : Nat × Store :=
  match cacheType with
  | Option.none =>
    (st.video.length + st.comments.length + st.search.length, ⟨[], [], []⟩)
  | Option.some s =>
    match parseCacheType s with
    | Option.none => (0, st)
    | Option.some ns => ((st.part ns).length, st.setPart ns [])

/-- The classification one loop iteration of `get_stats`/`cleanup_expired`
makes of a file: `Except.ok true` = valid, `Except.ok false` = expired
(a `json.JSONDecodeError` is caught and counted as expired), and a non-object
JSON document raises an `AttributeError` that no `except` clause catches. -/
def classifyRecord (defaultTTL now : Int) : RawRecord → Except PyErr Bool
  | RawRecord.badJson _ => Except.ok false
  | RawRecord.nonObj _ => Except.error PyErr.attributeError
  | RawRecord.obj cachedAt ttl _ _ =>
    Except.ok (!(now - cachedAt.getD 0 > ttl.getD defaultTTL))

/-- The per-directory statistics built by `get_dir_stats` inside
`CacheManager.get_stats` (lines 180-209). -/
structure DirStats : Type where
  total : Nat
  valid : Nat
  expired : Nat
  sizeBytes : Nat
deriving DecidableEq

/-- The loop of `get_dir_stats` over one subdirectory's files: sizes are
accumulated over all files, each file is classified, and an uncaught
exception discards the whole result. -/
def getDirStats (fileSize : RawRecord → Nat) (defaultTTL now : Int) :
    Partition → Except PyErr DirStats
  | [] => Except.ok ⟨0, 0, 0, 0⟩
  | e :: rest =>
    match classifyRecord defaultTTL now e.2 with
    | Except.error err => Except.error err
    | Except.ok b =>
      match getDirStats fileSize defaultTTL now rest with
      | Except.error err => Except.error err
      | Except.ok s =>
        Except.ok ⟨s.total + 1,
          s.valid + (if b then 1 else 0),
          s.expired + (if b then 0 else 1),
          s.sizeBytes + fileSize e.2⟩

/-- The aggregate result of `CacheManager.get_stats` (lines 173-224); the
float megabyte field and the directory path string are not modelled. -/
structure CacheStats : Type where
  video : DirStats
  comments : DirStats
  search : DirStats
  totalSizeBytes : Nat
deriving DecidableEq

/-- `CacheManager.get_stats` (lines 173-224): three read-only directory scans
in order, then the aggregate; the store is never modified. -/
def getStats (fileSize : RawRecord → Nat) (defaultTTL now : Int) (st : Store) :
    Except PyErr CacheStats × Store :=
  (do
    let v ← getDirStats fileSize defaultTTL now st.video
    let c ← getDirStats fileSize defaultTTL now st.comments
    let s ← getDirStats fileSize defaultTTL now st.search
    Except.ok ⟨v, c, s, v.sizeBytes + c.sizeBytes + s.sizeBytes⟩,
   st)

/-- The loop of `cleanup_expired` over one subdirectory: expired and
JSON-undecodable files are unlinked and counted; an uncaught `AttributeError`
aborts the loop, keeping the current file and the files not yet visited, and
the local count is lost with the exception. -/
def cleanupDir (defaultTTL now : Int) : Partition → Except PyErr Nat × Partition
  | [] => (Except.ok 0, [])
  | e :: rest =>
    match classifyRecord defaultTTL now e.2 with
    | Except.error err => (Except.error err, e :: rest)
    | Except.ok true =>
      match cleanupDir defaultTTL now rest with
      | (res, rest') => (res, e :: rest')
    | Except.ok false =>
      match cleanupDir defaultTTL now rest with
      | (Except.ok n, rest') => (Except.ok (n + 1), rest')
      | (Except.error err, rest') => (Except.error err, rest')

/-- `CacheManager.cleanup_expired` (lines 226-252): the three subdirectories
are cleaned in order; deletions already performed persist even when a later
file raises. -/
def cleanupExpired (defaultTTL now : Int) (st : Store) : Except PyErr Nat × Store :=
  match cleanupDir defaultTTL now st.video with
  | (Except.error err, v') => (Except.error err, { st with video := v' })
  | (Except.ok nv, v') =>
    match cleanupDir defaultTTL now st.comments with
    | (Except.error err, c') => (Except.error err, { st with video := v', comments := c' })
    | (Except.ok nc, c') =>
      match cleanupDir defaultTTL now st.search with
      | (Except.error err, s') => (Except.error err, ⟨v', c', s'⟩)
      | (Except.ok nsr, s') => (Except.ok (nv + nc + nsr), ⟨v', c', s'⟩)

end CacheManager

/-- True exactly of the record shape (valid JSON, non-object top level) on
which the scan loops of `get_stats` and `cleanup_expired` raise an uncaught
AttributeError. -/
def RawRecord.isNonObj : RawRecord → Bool
  | RawRecord.nonObj _ => true
  | _ => false

/-- The removal rule `cleanup_expired` applies to a file it classifies
without raising: JSON-undecodable, or expired under the substituted-default
metadata (`cached_at` defaulting to 0, `ttl` to the store default). -/
def removable (defaultTTL now : Int) : RawRecord → Bool
  | RawRecord.badJson _ => true
  | RawRecord.nonObj _ => true
  | RawRecord.obj cachedAt ttl _ _ => decide (now - cachedAt.getD 0 > ttl.getD defaultTTL)

/-- The summary `get_dir_stats` produces for a directory it scans without
raising: every file's size summed, each file classified by the same rule as
the cleanup removal rule. -/
def dirStatsSpec (fileSize : RawRecord → Nat) (defaultTTL now : Int) (p : Partition) :
    CacheManager.DirStats :=
  ⟨p.length,
   p.countP (fun e => !(removable defaultTTL now e.2)),
   p.countP (fun e => removable defaultTTL now e.2),
   (p.map (fun e => fileSize e.2)).sum⟩

/-- The per-namespace component of a `get_stats` result, selected by
namespace. -/
def CacheManager.CacheStats.nsStats (cs : CacheManager.CacheStats) :
    NS → CacheManager.DirStats
  | NS.video => cs.video
  | NS.comments => cs.comments
  | NS.search => cs.search

/-! ### Helper lemmas about the store embedding -/

theorem Store.part_setPart_same (s : Store) (ns : NS) (p : Partition) :
    (s.setPart ns p).part ns = p := by
  cases ns <;> rfl

theorem Store.part_setPart_ne (s : Store) (ns1 ns2 : NS) (p : Partition)
    (h : ns1 ≠ ns2) : (s.setPart ns1 p).part ns2 = s.part ns2 := by
  cases ns1 <;> cases ns2 <;> first | rfl | exact absurd rfl h

theorem lookupKey_setKey_same (p : Partition) (k : String) (r : RawRecord) :
    lookupKey (setKey p k r) k = Option.some r := by
  simp [setKey, lookupKey]

theorem classifyRecord_eq_ok (defaultTTL now : Int) (r : RawRecord)
    (h : r.isNonObj = false) :
    CacheManager.classifyRecord defaultTTL now r
      = Except.ok (!(removable defaultTTL now r)) := by
  cases r with
  | badJson raw => rfl
  | nonObj v => simp [RawRecord.isNonObj] at h
  | obj ca ttl ident data => rfl

theorem cleanupDir_clean (defaultTTL now : Int) (p : Partition)
    (h : ∀ e ∈ p, (e.2).isNonObj = false) :
    CacheManager.cleanupDir defaultTTL now p
      = (Except.ok (p.countP (fun e => removable defaultTTL now e.2)),
         p.filter (fun e => !(removable defaultTTL now e.2))) := by
  induction p with
  | nil => rfl
  | cons e rest ih =>
    have he : (e.2).isNonObj = false := h e (List.mem_cons_self _ _)
    have ihr := ih (fun x hx => h x (List.mem_cons_of_mem _ hx))
    by_cases hb : removable defaultTTL now e.2 = true
    · simp [CacheManager.cleanupDir, classifyRecord_eq_ok defaultTTL now e.2 he, hb,
        ihr, List.countP_cons, List.filter_cons]
    · simp [CacheManager.cleanupDir, classifyRecord_eq_ok defaultTTL now e.2 he, hb,
        ihr, List.countP_cons, List.filter_cons]

theorem getDirStats_clean (fileSize : RawRecord → Nat) (defaultTTL now : Int)
    (p : Partition) (h : ∀ e ∈ p, (e.2).isNonObj = false) :
    CacheManager.getDirStats fileSize defaultTTL now p
      = Except.ok (dirStatsSpec fileSize defaultTTL now p) := by
  induction p with
  | nil => rfl
  | cons e rest ih =>
    have he : (e.2).isNonObj = false := h e (List.mem_cons_self _ _)
    have ihr := ih (fun x hx => h x (List.mem_cons_of_mem _ hx))
    by_cases hb : removable defaultTTL now e.2 = true
    · simp [CacheManager.getDirStats, classifyRecord_eq_ok defaultTTL now e.2 he, hb,
        ihr, dirStatsSpec, List.countP_cons]
      omega
    · simp [CacheManager.getDirStats, classifyRecord_eq_ok defaultTTL now e.2 he, hb,
        ihr, dirStatsSpec, List.countP_cons]
      omega

theorem lookupKey_filter_of_keep (q : String × RawRecord → Bool) (k : String)
    (r : RawRecord) :
    ∀ p : Partition, lookupKey p k = Option.some r → q (k, r) = true →
      lookupKey (List.filter q p) k = Option.some r := by
  intro p
  induction p with
  | nil => intro habs _; exact absurd habs (by simp [lookupKey])
  | cons e rest ih =>
    intro hl hq
    by_cases hk : e.1 = k
    · have hr : e.2 = r := by simpa [lookupKey, hk] using hl
      have hek : e = (k, r) := by
        cases e
        simp only at hk hr
        rw [hk, hr]
      rw [hek] at hl ⊢
      simp only [List.filter_cons, hq, if_pos]
      simp [lookupKey]
    · have hl' : lookupKey rest k = Option.some r := by
        simpa [lookupKey, hk] using hl
      have ihr := ih hl' hq
      rcases hqe : q e with _ | _
      · simpa [List.filter_cons, hqe] using ihr
      · simpa [List.filter_cons, hqe, lookupKey, hk] using ihr

theorem mem_eraseKey (p : Partition) (k : String) (e : String × RawRecord)
    (h : e ∈ eraseKey p k) : e ∈ p := by
  induction p with
  | nil => simp [eraseKey] at h
  | cons a rest ih =>
    by_cases ha : a.1 = k
    · rw [eraseKey, if_pos ha] at h
      exact List.mem_cons_of_mem _ (ih h)
    · rw [eraseKey, if_neg ha] at h
      rcases List.mem_cons.mp h with h | h
      · rw [h]; exact List.mem_cons_self _ _
      · exact List.mem_cons_of_mem _ (ih h)

theorem isNonObj_false_setKey (p : Partition) (k : String) (ca t : Option Int)
    (ident : Option String) (data : PyVal)
    (hp : ∀ e ∈ p, (e.2).isNonObj = false) :
    ∀ e ∈ setKey p k (RawRecord.obj ca t ident data), (e.2).isNonObj = false := by
  intro e he
  rcases List.mem_cons.mp he with h | h
  · rw [h]; rfl
  · exact hp e (mem_eraseKey p k e h)

theorem clean_setPart (s : Store) (ns0 : NS) (p : Partition)
    (hs : ∀ ns : NS, ∀ e ∈ s.part ns, (e.2).isNonObj = false)
    (hp : ∀ e ∈ p, (e.2).isNonObj = false) :
    ∀ ns : NS, ∀ e ∈ (s.setPart ns0 p).part ns, (e.2).isNonObj = false := by
  intro ns
  by_cases h : ns0 = ns
  · rw [h, Store.part_setPart_same]
    exact hp
  · rw [Store.part_setPart_ne _ _ _ _ h]
    exact hs ns

theorem getStats_clean_component (fileSize : RawRecord → Nat) (defaultTTL now : Int)
    (s : Store) (hs : ∀ ns : NS, ∀ e ∈ s.part ns, (e.2).isNonObj = false) (ns : NS) :
    Except.map (fun cs => CacheManager.CacheStats.nsStats cs ns)
        ((CacheManager.getStats fileSize defaultTTL now s).1)
      = Except.ok (dirStatsSpec fileSize defaultTTL now (s.part ns)) := by
  have hv := getDirStats_clean fileSize defaultTTL now s.video (hs NS.video)
  have hc := getDirStats_clean fileSize defaultTTL now s.comments (hs NS.comments)
  have hsr := getDirStats_clean fileSize defaultTTL now s.search (hs NS.search)
  cases ns <;> (simp only [CacheManager.getStats, hv, hc, hsr]; rfl)

/-! ### Claims -/

/-- Claim C1, amended: `set` stores the supplied ttl only when it is nonzero;
Python's `ttl or self.default_ttl` treats an explicitly supplied `ttl = 0`
exactly like an absent ttl, substituting the store default. -/
theorem C1_set_stores_pyOr_ttl (hash : String → String) (defaultTTL now : Int)
    (st : Store) (cacheType identifier : String) (data : PyVal) (t : Int) (ns : NS)
    (hns : parseCacheType cacheType = Option.some ns) :
    lookupKey
        (((CacheManager.set hash defaultTTL now st cacheType identifier data
            (Option.some t)).2).part ns)
        (hash identifier)
      = Option.some (RawRecord.obj (Option.some now)
          (Option.some (if t = 0 then defaultTTL else t)) (Option.some identifier) data) := by
  simp [CacheManager.set, hns, Store.part_setPart_same, lookupKey_setKey_same, pyOrInt]

/-- Claim C1, counterexample: supplying `ttl = 0` explicitly writes an entry
whose stored ttl is the store default 3600, not the supplied 0. -/
theorem C1_counterexample :
    lookupKey (((CacheManager.set (fun s => s) 3600 1000 ⟨[], [], []⟩ "video" "k"
          (PyVal.int 7) (Option.some 0)).2).video) "k"
      = Option.some (RawRecord.obj (Option.some 1000) (Option.some 3600)
          (Option.some "k") (PyVal.int 7))
    ∧ (3600 : Int) ≠ 0 := by
  exact ⟨rfl, by decide⟩

/-- Witness for C1 at a concrete nonzero ttl. -/
theorem C1_witness :
    lookupKey (((CacheManager.set (fun s => s) 3600 1000 ⟨[], [], []⟩ "video" "k"
          (PyVal.int 7) (Option.some 5)).2).video) "k"
      = Option.some (RawRecord.obj (Option.some 1000) (Option.some 5)
          (Option.some "k") (PyVal.int 7)) := by
  have h := C1_set_stores_pyOr_ttl (fun s => s) 3600 1000 ⟨[], [], []⟩ "video" "k"
    (PyVal.int 7) 5 NS.video rfl
  simpa [Store.part] using h

/-- Claim C4: with an entry written at `ca` carrying ttl `t`, `get` at time
`now` is a hit returning the payload exactly when `now - ca ≤ t` (so the
boundary `now - ca = t` is a hit), and a miss that deletes the record exactly
when `now - ca > t`. -/
theorem C4_expiry_boundary (hash : String → String) (defaultTTL now : Int) (st : Store)
    (cacheType identifier : String) (ns : NS)
    (hns : parseCacheType cacheType = Option.some ns)
    (ca t : Int) (ident : Option String) (data : PyVal)
    (hrec : lookupKey (st.part ns) (hash identifier)
      = Option.some (RawRecord.obj (Option.some ca) (Option.some t) ident data)) :
    (now - ca ≤ t →
      CacheManager.get hash defaultTTL now st cacheType identifier = (Except.ok data, st))
    ∧ (now - ca > t →
      CacheManager.get hash defaultTTL now st cacheType identifier
        = (Except.ok PyVal.none, st.setPart ns (eraseKey (st.part ns) (hash identifier)))) := by
  constructor
  · intro h
    have hgt : ¬ (now - ca > t) := not_lt.mpr h
    simp [CacheManager.get, hns, hrec, hgt]
  · intro h
    simp [CacheManager.get, hns, hrec, h]

/-- Witness for C4: a read exactly at `now - ca = t` is still a hit. -/
theorem C4_witness :
    CacheManager.get (fun s => s) 3600 10
        ⟨[("kk", RawRecord.obj (Option.some 0) (Option.some 10) Option.none (PyVal.int 1))],
          [], []⟩ "video" "kk"
      = (Except.ok (PyVal.int 1),
         ⟨[("kk", RawRecord.obj (Option.some 0) (Option.some 10) Option.none (PyVal.int 1))],
           [], []⟩) := by
  have h := C4_expiry_boundary (fun s => s) 3600 10
    ⟨[("kk", RawRecord.obj (Option.some 0) (Option.some 10) Option.none (PyVal.int 1))],
      [], []⟩ "video" "kk" NS.video rfl 0 10 Option.none (PyVal.int 1) rfl
  exact h.1 (by decide)

/-- Claim C7: `get`, `set` and `invalidate` on an unrecognized cache type all
raise the distinct `ValueError("Unknown cache type")` without touching the
store, while `clear` on the same name returns 0 and removes nothing. -/
theorem C7_unknown_namespace (hash : String → String) (defaultTTL now : Int)
    (st : Store) (cacheType identifier : String) (data : PyVal) (ttl : Option Int)
    (hns : parseCacheType cacheType = Option.none) :
    CacheManager.get hash defaultTTL now st cacheType identifier
        = (Except.error PyErr.valueError, st)
    ∧ CacheManager.set hash defaultTTL now st cacheType identifier data ttl
        = (Except.error PyErr.valueError, st)
    ∧ CacheManager.invalidate hash st cacheType identifier
        = (Except.error PyErr.valueError, st)
    ∧ CacheManager.clear st (Option.some cacheType) = (0, st) := by
  refine ⟨?_, ?_, ?_, ?_⟩ <;>
    simp [CacheManager.get, CacheManager.set, CacheManager.invalidate,
      CacheManager.clear, hns]

/-- Witness for C7 at the unrecognized name "bogus". -/
theorem C7_witness :
    CacheManager.get (fun s => s) 3600 0 ⟨[], [], []⟩ "bogus" "k"
        = (Except.error PyErr.valueError, ⟨[], [], []⟩)
    ∧ CacheManager.set (fun s => s) 3600 0 ⟨[], [], []⟩ "bogus" "k" (PyVal.int 7) Option.none
        = (Except.error PyErr.valueError, ⟨[], [], []⟩)
    ∧ CacheManager.invalidate (fun s => s) ⟨[], [], []⟩ "bogus" "k"
        = (Except.error PyErr.valueError, ⟨[], [], []⟩)
    ∧ CacheManager.clear ⟨[], [], []⟩ (Option.some "bogus") = (0, ⟨[], [], []⟩) := by
  exact C7_unknown_namespace (fun s => s) 3600 0 ⟨[], [], []⟩ "bogus" "k"
    (PyVal.int 7) Option.none rfl

/-- Claim C2, amended: a record whose stored bytes fail JSON decoding is
self-healed: `get` returns None, unlinks the file, and raises nothing, and
the stats scan counts such a file under expired.  (The amendment excludes
records holding valid JSON that is not an object: on those, `get` raises an
uncaught AttributeError — see the counterexample.) -/
theorem C2_corrupt_json_selfheal (hash : String → String) (fileSize : RawRecord → Nat)
    (defaultTTL now : Int) (st : Store) (cacheType identifier : String) (ns : NS)
    (hns : parseCacheType cacheType = Option.some ns) (raw : String)
    (hrec : lookupKey (st.part ns) (hash identifier)
      = Option.some (RawRecord.badJson raw)) :
    CacheManager.get hash defaultTTL now st cacheType identifier
        = (Except.ok PyVal.none, st.setPart ns (eraseKey (st.part ns) (hash identifier)))
    ∧ CacheManager.getDirStats fileSize defaultTTL now
          [(hash identifier, RawRecord.badJson raw)]
        = Except.ok ⟨1, 0, 1, fileSize (RawRecord.badJson raw)⟩ := by
  constructor
  · simp [CacheManager.get, hns, hrec]
  · simp [CacheManager.getDirStats, CacheManager.classifyRecord]

/-- Claim C2, counterexample: a record that is valid JSON but not an object
(here the JSON document `3`) makes `get` raise an uncaught AttributeError
instead of returning None. -/
theorem C2_counterexample :
    (CacheManager.get (fun s => s) 3600 1000
        ⟨[("k", RawRecord.nonObj (PyVal.int 3))], [], []⟩ "video" "k").1
      = Except.error PyErr.attributeError := by
  rfl

/-- Witness for C2 on a concrete undecodable record. -/
theorem C2_witness :
    CacheManager.get (fun s => s) 3600 1000
        ⟨[("k", RawRecord.badJson "xyz")], [], []⟩ "video" "k"
      = (Except.ok PyVal.none, ⟨[], [], []⟩)
    ∧ CacheManager.getDirStats (fun _ => 17) 3600 1000 [("k", RawRecord.badJson "xyz")]
        = Except.ok ⟨1, 0, 1, 17⟩ := by
  have h := C2_corrupt_json_selfheal (fun s => s) (fun _ => 17) 3600 1000
    ⟨[("k", RawRecord.badJson "xyz")], [], []⟩ "video" "k" NS.video rfl "xyz" rfl
  exact ⟨h.1, h.2⟩

/-- Claim C3, amended: decoding substitutes defaults instead of failing on
missing metadata: a missing `cached_at` field reads as 0 and a missing `ttl`
field reads as the store default; in particular a record missing its TTL
field IS served as a valid hit whenever `now - cachedAt ≤ defaultTTL`, and
is not removed. -/
theorem C3_missing_fields_defaulted (hash : String → String) (defaultTTL now : Int)
    (st : Store) (cacheType identifier : String) (ns : NS)
    (hns : parseCacheType cacheType = Option.some ns)
    (ca : Option Int) (ident : Option String) (data : PyVal)
    (hrec : lookupKey (st.part ns) (hash identifier)
      = Option.some (RawRecord.obj ca Option.none ident data))
    (hfresh : now - ca.getD 0 ≤ defaultTTL) :
    CacheManager.get hash defaultTTL now st cacheType identifier = (Except.ok data, st) := by
  have hgt : ¬ (now - ca.getD 0 > defaultTTL) := not_lt.mpr hfresh
  simp [CacheManager.get, hns, hrec, hgt]

/-- Claim C3, counterexample: a fresh record whose `ttl` field is missing is
served as a valid hit (payload returned, record kept), not treated as an
irrecoverable decode failure. -/
theorem C3_counterexample :
    CacheManager.get (fun s => s) 3600 1000
        ⟨[("k", RawRecord.obj (Option.some 1000) Option.none Option.none (PyVal.int 7))],
          [], []⟩ "video" "k"
      = (Except.ok (PyVal.int 7),
         ⟨[("k", RawRecord.obj (Option.some 1000) Option.none Option.none (PyVal.int 7))],
           [], []⟩) := by
  rfl

/-- Witness for C3 on a concrete record with no `cached_at` and no `ttl`. -/
theorem C3_witness :
    CacheManager.get (fun s => s) 3600 100
        ⟨[], [("k", RawRecord.obj Option.none Option.none Option.none (PyVal.str "v"))], []⟩
        "comments" "k"
      = (Except.ok (PyVal.str "v"),
         ⟨[], [("k", RawRecord.obj Option.none Option.none Option.none (PyVal.str "v"))], []⟩) := by
  exact C3_missing_fields_defaulted (fun s => s) 3600 100
    ⟨[], [("k", RawRecord.obj Option.none Option.none Option.none (PyVal.str "v"))], []⟩
    "comments" "k" NS.comments rfl Option.none Option.none (PyVal.str "v") rfl (by decide)

/-- Claim C5: round-trip — after `set` with any payload and any ttl > 0, an
immediate `get` of the same identifier in the same namespace returns exactly
the payload. -/
theorem C5_roundtrip (hash : String → String) (defaultTTL now : Int) (st : Store)
    (cacheType identifier : String) (ns : NS)
    (hns : parseCacheType cacheType = Option.some ns) (data : PyVal) (t : Int)
    (ht : 0 < t) :
    (CacheManager.get hash defaultTTL now
        ((CacheManager.set hash defaultTTL now st cacheType identifier data
            (Option.some t)).2)
        cacheType identifier).1
      = Except.ok data := by
  have ht0 : t ≠ 0 := by omega
  have hlook : lookupKey
      (((CacheManager.set hash defaultTTL now st cacheType identifier data
          (Option.some t)).2).part ns) (hash identifier)
      = Option.some (RawRecord.obj (Option.some now) (Option.some t)
          (Option.some identifier) data) := by
    simp [CacheManager.set, hns, Store.part_setPart_same, lookupKey_setKey_same,
      pyOrInt, ht0]
  have hgt : ¬ t < 0 := by omega
  simp [CacheManager.get, hns, hlook, hgt]

/-- Witness for C5 with a list payload and ttl 5. -/
theorem C5_witness :
    (CacheManager.get (fun s => s) 3600 1000
        ((CacheManager.set (fun s => s) 3600 1000 ⟨[], [], []⟩ "search" "q"
            (PyVal.list [PyVal.int 1, PyVal.str "a"]) (Option.some 5)).2)
        "search" "q").1
      = Except.ok (PyVal.list [PyVal.int 1, PyVal.str "a"]) := by
  exact C5_roundtrip (fun s => s) 3600 1000 ⟨[], [], []⟩ "search" "q" NS.search rfl
    (PyVal.list [PyVal.int 1, PyVal.str "a"]) 5 (by decide)

/-- Claim C10: at the public interface a cached None payload cannot be told
apart from a miss: right after `set(N, id, None)`, `get(N, id)` returns the
Python value None, and `get` returns the very same value on any store that
has no record at all for that identifier. -/
theorem C10_none_payload (hash : String → String) (defaultTTL now : Int) (st : Store)
    (cacheType identifier : String) (ns : NS)
    (hns : parseCacheType cacheType = Option.some ns) (hd : 0 ≤ defaultTTL) :
    (CacheManager.get hash defaultTTL now
        ((CacheManager.set hash defaultTTL now st cacheType identifier PyVal.none
            Option.none).2)
        cacheType identifier).1
      = Except.ok PyVal.none
    ∧ ∀ st' : Store, lookupKey (st'.part ns) (hash identifier) = Option.none →
        (CacheManager.get hash defaultTTL now st' cacheType identifier).1
          = Except.ok PyVal.none := by
  constructor
  · have hlook : lookupKey
        (((CacheManager.set hash defaultTTL now st cacheType identifier PyVal.none
            Option.none).2).part ns) (hash identifier)
        = Option.some (RawRecord.obj (Option.some now) (Option.some defaultTTL)
            (Option.some identifier) PyVal.none) := by
      simp [CacheManager.set, hns, Store.part_setPart_same, lookupKey_setKey_same, pyOrInt]
    have hgt : ¬ defaultTTL < 0 := not_lt.mpr hd
    simp [CacheManager.get, hns, hlook, hgt]
  · intro st' habs
    simp [CacheManager.get, hns, habs]

/-- Witness for C10: cached None and plain absence produce the same result. -/
theorem C10_witness :
    (CacheManager.get (fun s => s) 3600 1000
        ((CacheManager.set (fun s => s) 3600 1000 ⟨[], [], []⟩ "video" "k" PyVal.none
            Option.none).2)
        "video" "k").1
      = Except.ok PyVal.none
    ∧ (CacheManager.get (fun s => s) 3600 1000 ⟨[], [], []⟩ "video" "k").1
      = Except.ok PyVal.none := by
  have h := C10_none_payload (fun s => s) 3600 1000 ⟨[], [], []⟩ "video" "k" NS.video
    rfl (by decide)
  exact ⟨h.1, h.2 ⟨[], [], []⟩ rfl⟩

/-- Claim C6: distinct recognized namespaces are isolated: after storing the
same identifier in two different namespaces, each `get` returns its own
namespace's payload, `clear` of either namespace leaves the other namespace's
partition untouched, and the stats scan never counts one namespace's records
toward the other — the ns2 component of `get_stats` is exactly the
classification of ns2's own partition and is unchanged when every ns1 record
is removed (stated on stores whose records the scan can classify, i.e. with
no valid-JSON-non-object record). -/
theorem C6_namespace_isolation (hash : String → String) (defaultTTL now : Int)
    (st : Store) (ct1 ct2 X : String) (ns1 ns2 : NS)
    (h1 : parseCacheType ct1 = Option.some ns1)
    (h2 : parseCacheType ct2 = Option.some ns2)
    (hne : ns1 ≠ ns2) (A B : PyVal) (t : Int) (ht : 0 < t) :
    (CacheManager.get hash defaultTTL now
        ((CacheManager.set hash defaultTTL now
            ((CacheManager.set hash defaultTTL now st ct1 X A (Option.some t)).2)
            ct2 X B (Option.some t)).2) ct1 X).1 = Except.ok A
    ∧ (CacheManager.get hash defaultTTL now
        ((CacheManager.set hash defaultTTL now
            ((CacheManager.set hash defaultTTL now st ct1 X A (Option.some t)).2)
            ct2 X B (Option.some t)).2) ct2 X).1 = Except.ok B
    ∧ ((CacheManager.clear
          ((CacheManager.set hash defaultTTL now
              ((CacheManager.set hash defaultTTL now st ct1 X A (Option.some t)).2)
              ct2 X B (Option.some t)).2) (Option.some ct1)).2).part ns2
        = ((CacheManager.set hash defaultTTL now
              ((CacheManager.set hash defaultTTL now st ct1 X A (Option.some t)).2)
              ct2 X B (Option.some t)).2).part ns2
    ∧ ((CacheManager.clear
          ((CacheManager.set hash defaultTTL now
              ((CacheManager.set hash defaultTTL now st ct1 X A (Option.some t)).2)
              ct2 X B (Option.some t)).2) (Option.some ct2)).2).part ns1
        = ((CacheManager.set hash defaultTTL now
              ((CacheManager.set hash defaultTTL now st ct1 X A (Option.some t)).2)
              ct2 X B (Option.some t)).2).part ns1
    ∧ ∀ fileSize : RawRecord → Nat,
        (∀ ns : NS, ∀ e ∈ st.part ns, (e.2).isNonObj = false) →
        Except.map (fun cs => CacheManager.CacheStats.nsStats cs ns2)
            ((CacheManager.getStats fileSize defaultTTL now
                ((CacheManager.set hash defaultTTL now
                    ((CacheManager.set hash defaultTTL now st ct1 X A (Option.some t)).2)
                    ct2 X B (Option.some t)).2)).1)
          = Except.ok (dirStatsSpec fileSize defaultTTL now
              (((CacheManager.set hash defaultTTL now
                  ((CacheManager.set hash defaultTTL now st ct1 X A (Option.some t)).2)
                  ct2 X B (Option.some t)).2).part ns2))
        ∧ Except.map (fun cs => CacheManager.CacheStats.nsStats cs ns2)
            ((CacheManager.getStats fileSize defaultTTL now
                ((CacheManager.clear
                    ((CacheManager.set hash defaultTTL now
                        ((CacheManager.set hash defaultTTL now st ct1 X A (Option.some t)).2)
                        ct2 X B (Option.some t)).2) (Option.some ct1)).2)).1)
          = Except.ok (dirStatsSpec fileSize defaultTTL now
              (((CacheManager.set hash defaultTTL now
                  ((CacheManager.set hash defaultTTL now st ct1 X A (Option.some t)).2)
                  ct2 X B (Option.some t)).2).part ns2)) := by
  have ht0 : t ≠ 0 := by omega
  have hgt : ¬ t < 0 := by omega
  have hne' := Ne.symm hne
  refine ⟨?_, ?_, ?_, ?_, ?_⟩
  · simp [CacheManager.set, CacheManager.get, h1, h2, pyOrInt, ht0,
      Store.part_setPart_same, Store.part_setPart_ne, hne, hne',
      lookupKey_setKey_same, hgt]
  · simp [CacheManager.set, CacheManager.get, h1, h2, pyOrInt, ht0,
      Store.part_setPart_same, Store.part_setPart_ne, hne, hne',
      lookupKey_setKey_same, hgt]
  · simp [CacheManager.set, CacheManager.clear, h1, h2, pyOrInt, ht0,
      Store.part_setPart_same, Store.part_setPart_ne, hne, hne']
  · simp [CacheManager.set, CacheManager.clear, h1, h2, pyOrInt, ht0,
      Store.part_setPart_same, Store.part_setPart_ne, hne, hne']
  · intro fileSize hclean
    have hst1 : (CacheManager.set hash defaultTTL now st ct1 X A (Option.some t)).2
        = st.setPart ns1 (setKey (st.part ns1) (hash X)
            (RawRecord.obj (Option.some now) (Option.some t) (Option.some X) A)) := by
      simp [CacheManager.set, h1, pyOrInt, ht0]
    have hst2 : (CacheManager.set hash defaultTTL now
          ((CacheManager.set hash defaultTTL now st ct1 X A (Option.some t)).2)
          ct2 X B (Option.some t)).2
        = ((CacheManager.set hash defaultTTL now st ct1 X A (Option.some t)).2).setPart ns2
            (setKey (((CacheManager.set hash defaultTTL now st ct1 X A
                (Option.some t)).2).part ns2) (hash X)
              (RawRecord.obj (Option.some now) (Option.some t) (Option.some X) B)) := by
      simp [CacheManager.set, h2, pyOrInt, ht0]
    have hcl1 : ∀ ns : NS,
        ∀ e ∈ ((CacheManager.set hash defaultTTL now st ct1 X A (Option.some t)).2).part ns,
          (e.2).isNonObj = false := by
      rw [hst1]
      exact clean_setPart st ns1 _ hclean
        (isNonObj_false_setKey _ _ _ _ _ _ (hclean ns1))
    have hcl2 : ∀ ns : NS,
        ∀ e ∈ ((CacheManager.set hash defaultTTL now
            ((CacheManager.set hash defaultTTL now st ct1 X A (Option.some t)).2)
            ct2 X B (Option.some t)).2).part ns,
          (e.2).isNonObj = false := by
      rw [hst2]
      exact clean_setPart _ ns2 _ hcl1
        (isNonObj_false_setKey _ _ _ _ _ _ (hcl1 ns2))
    constructor
    · exact getStats_clean_component fileSize defaultTTL now _ hcl2 ns2
    · have hclr : (CacheManager.clear
            ((CacheManager.set hash defaultTTL now
                ((CacheManager.set hash defaultTTL now st ct1 X A (Option.some t)).2)
                ct2 X B (Option.some t)).2) (Option.some ct1)).2
          = ((CacheManager.set hash defaultTTL now
              ((CacheManager.set hash defaultTTL now st ct1 X A (Option.some t)).2)
              ct2 X B (Option.some t)).2).setPart ns1 [] := by
        simp [CacheManager.clear, h1]
      have hclB : ∀ ns : NS,
          ∀ e ∈ ((CacheManager.clear
              ((CacheManager.set hash defaultTTL now
                  ((CacheManager.set hash defaultTTL now st ct1 X A (Option.some t)).2)
                  ct2 X B (Option.some t)).2) (Option.some ct1)).2).part ns,
            (e.2).isNonObj = false := by
        rw [hclr]
        exact clean_setPart _ ns1 [] hcl2 (by intro e he; cases he)
      have hcomp := getStats_clean_component fileSize defaultTTL now _ hclB ns2
      have hpeq : ((CacheManager.clear
            ((CacheManager.set hash defaultTTL now
                ((CacheManager.set hash defaultTTL now st ct1 X A (Option.some t)).2)
                ct2 X B (Option.some t)).2) (Option.some ct1)).2).part ns2
          = ((CacheManager.set hash defaultTTL now
              ((CacheManager.set hash defaultTTL now st ct1 X A (Option.some t)).2)
              ct2 X B (Option.some t)).2).part ns2 := by
        rw [hclr, Store.part_setPart_ne _ _ _ _ hne]
      rw [hpeq] at hcomp
      exact hcomp

/-- Witness for C6 with the video and comments namespaces sharing
identifier "x". -/
theorem C6_witness :
    (CacheManager.get (fun s => s) 3600 1000
        ((CacheManager.set (fun s => s) 3600 1000
            ((CacheManager.set (fun s => s) 3600 1000 ⟨[], [], []⟩ "video" "x"
                (PyVal.int 1) (Option.some 5)).2)
            "comments" "x" (PyVal.int 2) (Option.some 5)).2) "video" "x").1
      = Except.ok (PyVal.int 1)
    ∧ (CacheManager.get (fun s => s) 3600 1000
        ((CacheManager.set (fun s => s) 3600 1000
            ((CacheManager.set (fun s => s) 3600 1000 ⟨[], [], []⟩ "video" "x"
                (PyVal.int 1) (Option.some 5)).2)
            "comments" "x" (PyVal.int 2) (Option.some 5)).2) "comments" "x").1
      = Except.ok (PyVal.int 2)
    ∧ ((CacheManager.clear
          ((CacheManager.set (fun s => s) 3600 1000
              ((CacheManager.set (fun s => s) 3600 1000 ⟨[], [], []⟩ "video" "x"
                  (PyVal.int 1) (Option.some 5)).2)
              "comments" "x" (PyVal.int 2) (Option.some 5)).2) (Option.some "video")).2).part
          NS.comments
        = ((CacheManager.set (fun s => s) 3600 1000
              ((CacheManager.set (fun s => s) 3600 1000 ⟨[], [], []⟩ "video" "x"
                  (PyVal.int 1) (Option.some 5)).2)
              "comments" "x" (PyVal.int 2) (Option.some 5)).2).part NS.comments
    ∧ ((CacheManager.clear
          ((CacheManager.set (fun s => s) 3600 1000
              ((CacheManager.set (fun s => s) 3600 1000 ⟨[], [], []⟩ "video" "x"
                  (PyVal.int 1) (Option.some 5)).2)
              "comments" "x" (PyVal.int 2) (Option.some 5)).2) (Option.some "comments")).2).part
          NS.video
        = ((CacheManager.set (fun s => s) 3600 1000
              ((CacheManager.set (fun s => s) 3600 1000 ⟨[], [], []⟩ "video" "x"
                  (PyVal.int 1) (Option.some 5)).2)
              "comments" "x" (PyVal.int 2) (Option.some 5)).2).part NS.video
    ∧ Except.map (fun cs => CacheManager.CacheStats.nsStats cs NS.comments)
        ((CacheManager.getStats (fun _ => 3) 3600 1000
            ((CacheManager.set (fun s => s) 3600 1000
                ((CacheManager.set (fun s => s) 3600 1000 ⟨[], [], []⟩ "video" "x"
                    (PyVal.int 1) (Option.some 5)).2)
                "comments" "x" (PyVal.int 2) (Option.some 5)).2)).1)
      = Except.ok ⟨1, 1, 0, 3⟩
    ∧ Except.map (fun cs => CacheManager.CacheStats.nsStats cs NS.comments)
        ((CacheManager.getStats (fun _ => 3) 3600 1000
            ((CacheManager.clear
                ((CacheManager.set (fun s => s) 3600 1000
                    ((CacheManager.set (fun s => s) 3600 1000 ⟨[], [], []⟩ "video" "x"
                        (PyVal.int 1) (Option.some 5)).2)
                    "comments" "x" (PyVal.int 2) (Option.some 5)).2)
                (Option.some "video")).2)).1)
      = Except.ok ⟨1, 1, 0, 3⟩ := by
  have h := C6_namespace_isolation (fun s => s) 3600 1000 ⟨[], [], []⟩ "video" "comments" "x"
    NS.video NS.comments rfl rfl (by decide) (PyVal.int 1) (PyVal.int 2) 5 (by decide)
  have h5 := h.2.2.2.2 (fun _ => 3) (fun ns => by cases ns <;> decide)
  exact ⟨h.1, h.2.1, h.2.2.1, h.2.2.2.1, h5.1, h5.2⟩

/-- Claim C8, amended: on stores where no record is valid-JSON-non-object,
`cleanup_expired` removes exactly the undecodable-or-expired records across
the three namespaces, returns their count, keeps every other record
verbatim, and a kept valid record is still retrievable via `get`.  (The
amendment excludes non-object-JSON records: on those the scan raises an
uncaught AttributeError — see the counterexample.) -/
theorem C8_cleanup_selective (hash : String → String) (defaultTTL now : Int) (st : Store)
    (h : ∀ ns : NS, ∀ e ∈ st.part ns, (e.2).isNonObj = false) :
    CacheManager.cleanupExpired defaultTTL now st
      = (Except.ok
          (st.video.countP (fun e => removable defaultTTL now e.2)
            + st.comments.countP (fun e => removable defaultTTL now e.2)
            + st.search.countP (fun e => removable defaultTTL now e.2)),
         ⟨List.filter (fun e => !(removable defaultTTL now e.2)) st.video,
          List.filter (fun e => !(removable defaultTTL now e.2)) st.comments,
          List.filter (fun e => !(removable defaultTTL now e.2)) st.search⟩)
    ∧ ∀ (cacheType identifier : String) (ns : NS),
        parseCacheType cacheType = Option.some ns →
        ∀ (ca t : Int) (ident : Option String) (data : PyVal),
          lookupKey (st.part ns) (hash identifier)
            = Option.some (RawRecord.obj (Option.some ca) (Option.some t) ident data) →
          now - ca ≤ t →
          (CacheManager.get hash defaultTTL now
              ((CacheManager.cleanupExpired defaultTTL now st).2) cacheType identifier).1
            = Except.ok data := by
  have hv := cleanupDir_clean defaultTTL now st.video (h NS.video)
  have hc := cleanupDir_clean defaultTTL now st.comments (h NS.comments)
  have hs := cleanupDir_clean defaultTTL now st.search (h NS.search)
  constructor
  · simp [CacheManager.cleanupExpired, hv, hc, hs]
  · intro cacheType identifier ns hns ca t ident data hrec hvalid
    have hkeep : (fun e : String × RawRecord => !(removable defaultTTL now e.2))
        (hash identifier, RawRecord.obj (Option.some ca) (Option.some t) ident data)
        = true := by
      simp [removable]
      omega
    have hpart : ((CacheManager.cleanupExpired defaultTTL now st).2).part ns
        = List.filter (fun e => !(removable defaultTTL now e.2)) (st.part ns) := by
      cases ns <;> simp [CacheManager.cleanupExpired, hv, hc, hs, Store.part]
    have hlook2 : lookupKey (((CacheManager.cleanupExpired defaultTTL now st).2).part ns)
        (hash identifier)
        = Option.some (RawRecord.obj (Option.some ca) (Option.some t) ident data) := by
      rw [hpart]
      exact lookupKey_filter_of_keep (fun e => !(removable defaultTTL now e.2))
        (hash identifier) (RawRecord.obj (Option.some ca) (Option.some t) ident data)
        (st.part ns) hrec hkeep
    have hgt : ¬ (now - ca > t) := not_lt.mpr hvalid
    simp [CacheManager.get, hns, hlook2, hgt]

/-- Claim C8, counterexample: a record that is valid JSON but not an object
makes `cleanup_expired` raise an uncaught AttributeError, neither removing
that undecodable record nor returning a count. -/
theorem C8_counterexample :
    CacheManager.cleanupExpired 3600 1000
        ⟨[("k", RawRecord.nonObj (PyVal.int 3))], [], []⟩
      = (Except.error PyErr.attributeError,
         ⟨[("k", RawRecord.nonObj (PyVal.int 3))], [], []⟩) := by
  rfl

/-- Witness for C8: of one valid, one expired and one corrupt record, cleanup
removes exactly the latter two and the valid one is still retrievable. -/
theorem C8_witness :
    CacheManager.cleanupExpired 3600 5
        ⟨[("a", RawRecord.obj (Option.some 0) (Option.some 10) Option.none (PyVal.int 1)),
          ("b", RawRecord.obj (Option.some 0) (Option.some 3) Option.none (PyVal.int 2)),
          ("c", RawRecord.badJson "z")], [], []⟩
      = (Except.ok 2,
         ⟨[("a", RawRecord.obj (Option.some 0) (Option.some 10) Option.none (PyVal.int 1))],
           [], []⟩)
    ∧ (CacheManager.get (fun s => s) 3600 5
        ((CacheManager.cleanupExpired 3600 5
            ⟨[("a", RawRecord.obj (Option.some 0) (Option.some 10) Option.none (PyVal.int 1)),
              ("b", RawRecord.obj (Option.some 0) (Option.some 3) Option.none (PyVal.int 2)),
              ("c", RawRecord.badJson "z")], [], []⟩).2) "video" "a").1
      = Except.ok (PyVal.int 1) := by
  have h := C8_cleanup_selective (fun s => s) 3600 5
    ⟨[("a", RawRecord.obj (Option.some 0) (Option.some 10) Option.none (PyVal.int 1)),
      ("b", RawRecord.obj (Option.some 0) (Option.some 3) Option.none (PyVal.int 2)),
      ("c", RawRecord.badJson "z")], [], []⟩
    (fun ns => by cases ns <;> decide)
  exact ⟨h.1, h.2 "video" "a" NS.video rfl 0 10 Option.none (PyVal.int 1) rfl (by decide)⟩

/-- Claim C9, amended: `get_stats` is read-only on every store state — it
never deletes or modifies a record, even when it raises — and on stores with
no valid-JSON-non-object record it classifies each record by exactly the
cleanup removal rule and sums on-disk size over all records, valid and
expired alike.  (The amendment concerns non-object-JSON records: on those the
scan raises an uncaught AttributeError instead of returning counts — see the
counterexample.) -/
theorem C9_stats_read_only (fileSize : RawRecord → Nat) (defaultTTL now : Int)
    (st : Store) (h : ∀ ns : NS, ∀ e ∈ st.part ns, (e.2).isNonObj = false) :
    (∀ st' : Store, (CacheManager.getStats fileSize defaultTTL now st').2 = st')
    ∧ CacheManager.getStats fileSize defaultTTL now st
        = (Except.ok
            ⟨dirStatsSpec fileSize defaultTTL now st.video,
             dirStatsSpec fileSize defaultTTL now st.comments,
             dirStatsSpec fileSize defaultTTL now st.search,
             (dirStatsSpec fileSize defaultTTL now st.video).sizeBytes
               + (dirStatsSpec fileSize defaultTTL now st.comments).sizeBytes
               + (dirStatsSpec fileSize defaultTTL now st.search).sizeBytes⟩,
           st) := by
  refine ⟨fun _ => rfl, ?_⟩
  have hv := getDirStats_clean fileSize defaultTTL now st.video (h NS.video)
  have hc := getDirStats_clean fileSize defaultTTL now st.comments (h NS.comments)
  have hs := getDirStats_clean fileSize defaultTTL now st.search (h NS.search)
  simp only [CacheManager.getStats, hv, hc, hs]
  rfl

/-- Claim C9, counterexample: on a store holding a valid-JSON-non-object
record, `get_stats` raises an uncaught AttributeError instead of returning a
classification of every record. -/
theorem C9_counterexample :
    (CacheManager.getStats (fun _ => 1) 3600 1000
        ⟨[("k", RawRecord.nonObj (PyVal.int 3))], [], []⟩).1
      = Except.error PyErr.attributeError := by
  rfl

/-- Witness for C9: a concrete store with one valid, one corrupt and one
expired record is classified and sized without modification, and even a store
that makes stats raise is left unmodified. -/
theorem C9_witness :
    CacheManager.getStats (fun _ => 3) 3600 5
        ⟨[("a", RawRecord.obj (Option.some 0) (Option.some 10) Option.none (PyVal.int 1)),
          ("b", RawRecord.badJson "z")], [],
         [("c", RawRecord.obj (Option.some 0) (Option.some 3) Option.none PyVal.none)]⟩
      = (Except.ok ⟨⟨2, 1, 1, 6⟩, ⟨0, 0, 0, 0⟩, ⟨1, 0, 1, 3⟩, 9⟩,
         ⟨[("a", RawRecord.obj (Option.some 0) (Option.some 10) Option.none (PyVal.int 1)),
           ("b", RawRecord.badJson "z")], [],
          [("c", RawRecord.obj (Option.some 0) (Option.some 3) Option.none PyVal.none)]⟩)
    ∧ (CacheManager.getStats (fun _ => 3) 3600 5
        ⟨[("k", RawRecord.nonObj (PyVal.int 3))], [], []⟩).2
      = ⟨[("k", RawRecord.nonObj (PyVal.int 3))], [], []⟩ := by
  have h := C9_stats_read_only (fun _ => 3) 3600 5
    ⟨[("a", RawRecord.obj (Option.some 0) (Option.some 10) Option.none (PyVal.int 1)),
      ("b", RawRecord.badJson "z")], [],
     [("c", RawRecord.obj (Option.some 0) (Option.some 3) Option.none PyVal.none)]⟩
    (fun ns => by cases ns <;> decide)
  exact ⟨h.2, h.1 ⟨[("k", RawRecord.nonObj (PyVal.int 3))], [], []⟩⟩

end YouSeo
